import Mathlib

/-!
Verification of the weather-app acquisition layer
(`services/weatherAPI.ts` and the page-level helpers in `app/page.tsx`).

Shallow embedding conventions:
* A JavaScript `number` that comes out of JSON is modelled as `ℚ`
  (JSON cannot encode NaN or Infinity).
* The two `number` fields of `CityInfo` are modelled as `Option ℚ`
  because they can be produced by `parseFloat`, which yields NaN on
  unparseable input; `none` models NaN.
* An optional object field (`state?: string`) is `Option String`.
* The outcome of an `await` on an axios request is passed to the
  embedded function as an explicit `Except` argument: `Except.ok`
  is a fulfilled promise, `Except.error` a rejection (timeout,
  non-2xx status, ...).  A `try { ... } catch` block becomes a
  `match` on that argument.
-/

set_option linter.unusedVariables false

namespace Weather

/-- Units accepted by the backend ('metric' | 'imperial'). -/
inductive Units where
  | metric
  | imperial
deriving DecidableEq, Repr

/-- `main` block of an hourly sample (interface `HourlyForecast.main`). -/
structure HourlyMain where
  temp : ℚ
  feels_like : ℚ
  temp_min : ℚ
  temp_max : ℚ
  pressure : ℚ
  sea_level : ℚ
  grnd_level : ℚ
  humidity : ℚ
  temp_kf : ℚ
deriving DecidableEq, Repr

/-- One weather-condition entry (interface `HourlyForecast.weather[i]`). -/
structure WeatherCond where
  id : ℤ
  main : String
  description : String
  icon : String
deriving DecidableEq, Repr

/-- Cloud cover (interface `HourlyForecast.clouds`). -/
structure Clouds where
  all : ℚ
deriving DecidableEq, Repr

/-- Wind vector (interface `HourlyForecast.wind`). -/
structure Wind where
  speed : ℚ
  deg : ℚ
  gust : ℚ
deriving DecidableEq, Repr

/-- Rain accumulation; the JSON key is "3h" (interface `HourlyForecast.rain`). -/
structure Rain where
  threeH : ℚ
deriving DecidableEq, Repr

/-- Day/night indicator block (interface `HourlyForecast.sys`). -/
structure Sys where
  pod : String
deriving DecidableEq, Repr

/-- Interface `HourlyForecast` of `weatherAPI.ts`. -/
structure HourlyForecast where
  dt : ℤ
  main : HourlyMain
  weather : List WeatherCond
  clouds : Clouds
  wind : Wind
  visibility : ℚ
  pop : ℚ
  rain : Option Rain
  sys : Sys
  dt_txt : String
deriving DecidableEq, Repr

/-- Interface `DailyForecast` of `weatherAPI.ts`. -/
structure DailyForecast where
  date : String
  day_of_week : String
  avg_temp : ℚ
  min_temp : ℚ
  max_temp : ℚ
  weather_condition : String
  weather_description : String
  weather_icon : String
  hourly_forecasts : List HourlyForecast
deriving DecidableEq, Repr

/-- Interface `CityInfo` of `weatherAPI.ts`.  `lat`/`lon` are `Option ℚ`
because this record is also built by `getLocationFromCoords` out of
`parseFloat`, whose result may be NaN (modelled `none`). -/
structure CityInfo where
  name : String
  country : String
  state : Option String
  lat : Option ℚ
  lon : Option ℚ
deriving DecidableEq, Repr

/-- Coordinate pair inside interface `City`. -/
structure Coord where
  lat : ℚ
  lon : ℚ
deriving DecidableEq, Repr

/-- Interface `City` of `weatherAPI.ts`. -/
structure City where
  id : ℤ
  name : String
  coord : Coord
  country : String
  population : ℤ
  timezone : ℤ
  sunrise : ℤ
  sunset : ℤ
deriving DecidableEq, Repr

/-- Interface `WeatherForecast` of `weatherAPI.ts`. -/
structure WeatherForecast where
  city : City
  daily_forecasts : List DailyForecast
  city_info : CityInfo
deriving DecidableEq, Repr

/-- `address` block of the Nominatim reverse-geocoding response. -/
structure Address where
  city : Option String
  town : Option String
  village : Option String
  county : Option String
  state : Option String
  country : String
  country_code : String
deriving DecidableEq, Repr

/-- Interface `NominatimResponse` of `weatherAPI.ts`.  `lat`/`lon` are
strings in the wire format and are parsed with `parseFloat` by the
client. -/
structure NominatimResponse where
  place_id : ℤ
  licence : String
  osm_type : String
  osm_id : ℤ
  lat : String
  lon : String
  display_name : String
  address : Address
  boundingbox : List String
deriving DecidableEq, Repr

/-- Ways the `await nominatimApi.get(...)` inside the geocoding try-block
can throw: axios rejection on timeout, axios rejection on a non-2xx
status, or a TypeError raised afterwards when the body does not have the
expected shape (field access on a malformed `data`). -/
inductive GeoFailure where
  | timeout
  | httpError (status : Nat)
  | malformedBody (raw : String)
deriving DecidableEq, Repr

/-- Ways an awaited backend forecast request can reject. -/
inductive AxiosError where
  | timeout
  | networkError (msg : String)
  | serverError (status : Nat) (body : String)
deriving DecidableEq, Repr

/-- Numeric value of a list of decimal digit characters. -/
def digitsVal (ds : List Char) : ℕ :=
  ds.foldl (fun a c => 10 * a + (c.toNat - 48)) 0

/-- Mantissa part of JS `parseFloat`: digits, optionally followed by a
dot and more digits; `none` when no digit is found (NaN).  Returns the
value and the unconsumed suffix. -/
def parseMantissa (cs : List Char) : Option (ℚ × List Char) :=
  let intPart := cs.takeWhile Char.isDigit
  let rest := cs.dropWhile Char.isDigit
  match rest with
  | '.' :: rest2 =>
      let fracPart := rest2.takeWhile Char.isDigit
      let rest3 := rest2.dropWhile Char.isDigit
      if intPart.isEmpty && fracPart.isEmpty then none
      else some ((digitsVal intPart : ℚ) + (digitsVal fracPart : ℚ) / (10 ^ fracPart.length), rest3)
  | _ =>
      if intPart.isEmpty then none
      else some ((digitsVal intPart : ℚ), rest)

/-- Model of JS `parseFloat`: skip leading whitespace, optional sign,
decimal mantissa, optional exponent; trailing garbage is ignored.
`none` models NaN (no parsable numeric prefix). -/
def parseFloatQ (s : String) : Option ℚ :=
  let cs := s.toList.dropWhile Char.isWhitespace
  let signed : ℚ × List Char :=
    match cs with
    | '-' :: t => (-1, t)
    | '+' :: t => (1, t)
    | _ => (1, cs)
  match parseMantissa signed.2 with
  | none => none
  | some (m, rest) =>
      let e : ℤ :=
        match rest with
        | c :: t =>
            if c = 'e' || c = 'E' then
              let expPart : ℤ × List Char :=
                match t with
                | '-' :: u => (-1, u)
                | '+' :: u => (1, u)
                | _ => (1, t)
              let ds := expPart.2.takeWhile Char.isDigit
              if ds.isEmpty then 0 else expPart.1 * (digitsVal ds : ℤ)
            else 0
        | [] => 0
      some (signed.1 * m * (10 : ℚ) ^ e)

/-- JS `a || b` on an optional string `a`: `undefined` and the empty
string are falsy, any other string wins. -/
def jsOrS (x : Option String) (y : String) : String :=
  match x with
  | none => y
  | some s => if s = "" then y else s

/-- Line 147 of `weatherAPI.ts`:
`data.address.city || data.address.town || data.address.village || data.address.county || 'Unknown Location'`. -/
def resolveName (a : Address) : String :=
  jsOrS a.city (jsOrS a.town (jsOrS a.village (jsOrS a.county "Unknown Location")))

/-- `WeatherService.getLocationFromCoords`.  The outcome of the awaited
Nominatim request is the `outcome` argument; the surrounding
`try { ... } catch { return null }` maps every failure to `none`. -/
def getLocationFromCoords (lat lon : ℚ) (outcome : Except GeoFailure NominatimResponse) :
    Option CityInfo :=
  match outcome with
  | Except.ok data =>
      some { name := resolveName data.address
             country := data.address.country
             state := data.address.state
             lat := parseFloatQ data.lat
             lon := parseFloatQ data.lon }
  | Except.error _ => none

/-- `WeatherService.getForecastByCity`.  The outcome of the awaited
backend request is the `outcome` argument; the catch block logs and
rethrows the very same error (`throw error`), so the function is the
identity on both branches of the outcome. -/
def getForecastByCity (city : String) (units : Units)
    (outcome : Except AxiosError WeatherForecast) : Except AxiosError WeatherForecast :=
  match outcome with
  | Except.ok response => Except.ok response
  | Except.error e => Except.error e

/-- Network events emitted by `getForecastByCoords`, in program order:
each awaited request contributes an issue event followed by a
completion event. -/
inductive Event where
  | geoRequest (lat lon : ℚ)
  | geoComplete (result : Option CityInfo)
  | forecastRequest (lat lon : ℚ) (units : Units)
  | forecastComplete (result : Except AxiosError WeatherForecast)
deriving Repr

/-- `WeatherService.getForecastByCoords`, instrumented with the trace of
network events in the order the code issues and awaits them.  The body
first awaits `getLocationFromCoords(lat, lon)` (which never throws),
then awaits the backend request with the original `lat`, `lon`,
`units`, and finally merges: when `locationInfo` is non-null it
rebuilds `city_info` by spreading the backend record and overwriting
`name`, `country` and `state` with the geocoder values.  A backend
rejection reaches the catch block, which logs and rethrows it
unchanged. -/
def getForecastByCoordsRun (lat lon : ℚ) (units : Units)
    (geo : Except GeoFailure NominatimResponse)
    (backend : Except AxiosError WeatherForecast) :
    List Event × Except AxiosError WeatherForecast :=
  let locationInfo := getLocationFromCoords lat lon geo
  let trace : List Event :=
    [Event.geoRequest lat lon, Event.geoComplete locationInfo,
     Event.forecastRequest lat lon units, Event.forecastComplete backend]
  match backend with
  | Except.error e => (trace, Except.error e)
  | Except.ok weatherData =>
      match locationInfo with
      | some li =>
          (trace, Except.ok { weatherData with
            city_info := { weatherData.city_info with
              name := li.name
              country := li.country
              state := li.state } })
      | none => (trace, Except.ok weatherData)

/-- Result component of `getForecastByCoords` (the value of the
returned promise). -/
def getForecastByCoords (lat lon : ℚ) (units : Units)
    (geo : Except GeoFailure NominatimResponse)
    (backend : Except AxiosError WeatherForecast) : Except AxiosError WeatherForecast :=
  (getForecastByCoordsRun lat lon units geo backend).2

/-- JS truthiness of a `number` that may be NaN: `0` and NaN are falsy. -/
def jsTruthyNum (x : Option ℚ) : Bool :=
  match x with
  | none => false
  | some q => if q = 0 then false else true

/-- The fetch path chosen by a run of `refetchWeather` in
`app/page.tsx`. -/
inductive RefetchAction where
  | byCoords (lat lon : Option ℚ) (units : Units)
  | byCity (city : String) (units : Units)
  | noAction
deriving DecidableEq, Repr

/-- Dispatch structure of `refetchWeather` (page.tsx lines 74-122):
`if (weatherData?.city_info)` — `city_info` is a required field, so
this is presence of `weatherData`; then
`if (weatherData.city_info.lat && weatherData.city_info.lon)` chooses
the coordinate path, `else if (city)` the name path; with no prior
data, `else if (city)` chooses the name path. -/
def refetchDispatch (weatherData : Option WeatherForecast) (city : String)
    (units : Units) : RefetchAction :=
  match weatherData with
  | some wd =>
      if jsTruthyNum wd.city_info.lat && jsTruthyNum wd.city_info.lon then
        RefetchAction.byCoords wd.city_info.lat wd.city_info.lon units
      else if city = "" then RefetchAction.noAction
      else RefetchAction.byCity city units
  | none =>
      if city = "" then RefetchAction.noAction
      else RefetchAction.byCity city units

/-- JS truncation toward zero, as performed by `%` on numbers. -/
def jsTrunc (x : ℚ) : ℤ :=
  if 0 ≤ x then ⌊x⌋ else ⌈x⌉

/-- JS remainder `x % n` for `n ≠ 0`: the remainder after truncated
division, carrying the sign of the dividend. -/
def jsMod (x n : ℚ) : ℚ :=
  x - n * (jsTrunc (x / n) : ℚ)

/-- JS `Math.round`: round half toward positive infinity. -/
def jsRound (x : ℚ) : ℤ :=
  ⌊x + 1 / 2⌋

/-- The compass labels array of `getWindDirection`. -/
def directions : List String :=
  ["N", "NE", "E", "SE", "S", "SW", "W", "NW"]

/-- `getWindDirection` (page.tsx lines 165-169).  `none` input models the
`deg === undefined` guard.  The array index
`Math.round(((deg % 360) / 45)) % 8` uses JS truncated integer
remainder; a negative index would make the JS expression evaluate to
`undefined` despite the `string` annotation, modelled by a `none`
result. -/
def getWindDirection (deg : Option ℚ) : Option String :=
  match deg with
  | none => some "N/A"
  | some d =>
      let i : ℤ := Int.tmod (jsRound (jsMod d 360 / 45)) 8
      if i < 0 then none else directions.get? i.toNat

/-- `x` is a missing or empty address field (JS falsy string). -/
def blank (x : Option String) : Prop :=
  x = none ∨ x = some ""

/-- A concrete Nominatim response whose address has a city and a state. -/
def nomA : NominatimResponse :=
  { place_id := 7
    licence := "ODbL"
    osm_type := "relation"
    osm_id := 10
    lat := "-1.29"
    lon := "36.82"
    display_name := "Nairobi, Kenya"
    address :=
      { city := some "Nairobi"
        town := none
        village := none
        county := some "Nairobi County"
        state := some "Nairobi Province"
        country := "Kenya"
        country_code := "ke" }
    boundingbox := [] }

/-- A concrete Nominatim response whose address has no state field. -/
def nomB : NominatimResponse :=
  { nomA with address := { nomA.address with state := none } }

/-- A concrete Nominatim response whose address has no city but a town. -/
def nomC : NominatimResponse :=
  { nomA with address := { nomA.address with city := none, town := some "Mombasa" } }

/-- The `CityInfo` that `getLocationFromCoords` builds from `nomA`. -/
def ciA : CityInfo :=
  { name := "Nairobi"
    country := "Kenya"
    state := some "Nairobi Province"
    lat := parseFloatQ "-1.29"
    lon := parseFloatQ "36.82" }

/-- A concrete daily aggregate with no hourly samples. -/
def dailyA : DailyForecast :=
  { date := "2026-10-11"
    day_of_week := "Saturday"
    avg_temp := 21
    min_temp := 17
    max_temp := 25
    weather_condition := "Clouds"
    weather_description := "scattered clouds"
    weather_icon := "03d"
    hourly_forecasts := [] }

/-- A concrete backend forecast response.  Its `city_info` carries the
backend's own coordinates and a backend-supplied state. -/
def wfA : WeatherForecast :=
  { city :=
      { id := 184745
        name := "Nairobi"
        coord := { lat := -2, lon := 37 }
        country := "KE"
        population := 2750547
        timezone := 10800
        sunrise := 1760150000
        sunset := 1760193000 }
    daily_forecasts := [dailyA]
    city_info :=
      { name := "Nairobi Backend"
        country := "KE"
        state := some "Nairobi Region"
        lat := some (-2)
        lon := some 37 } }

/-- C1: when geocoding yields a descriptor, `getForecastByCoords` returns
the backend response with exactly the three `city_info` fields `name`,
`country` and `state` replaced by the descriptor's values and every
other component (the `city` record, `daily_forecasts`, and
`city_info.lat`/`lon`) unchanged; when geocoding yields `none`, the
backend response is returned entirely unchanged. -/
theorem getForecastByCoords_merge_frame (lat lon : ℚ) (u : Units)
    (geo : Except GeoFailure NominatimResponse) (wf : WeatherForecast) :
    (∀ li, getLocationFromCoords lat lon geo = some li →
      getForecastByCoords lat lon u geo (Except.ok wf) =
        Except.ok { wf with city_info := { wf.city_info with
          name := li.name, country := li.country, state := li.state } }) ∧
    (getLocationFromCoords lat lon geo = none →
      getForecastByCoords lat lon u geo (Except.ok wf) = Except.ok wf) := by
  constructor
  · intro li hli
    simp [getForecastByCoords, getForecastByCoordsRun, hli]
  · intro hnone
    simp [getForecastByCoords, getForecastByCoordsRun, hnone]

/-- Witness for C1 at a concrete geocoder response and backend response. -/
theorem getForecastByCoords_merge_frame_witness :
    getForecastByCoords 1 2 Units.metric (Except.ok nomA) (Except.ok wfA) =
      Except.ok { wfA with city_info := { wfA.city_info with
        name := ciA.name, country := ciA.country, state := ciA.state } } :=
  (getForecastByCoords_merge_frame 1 2 Units.metric (Except.ok nomA) wfA).1 ciA rfl

/-- C2 counterexample: at input coordinates (1, 2), with a successful
geocoding response and a backend response whose `city_info.lat` is
-1.3, the returned Forecast's `city_info.lat` is not the input
latitude 1 — it is the backend's value. -/
theorem cityInfo_lat_not_input_counterexample :
    ((getForecastByCoords 1 2 Units.metric (Except.ok nomA) (Except.ok wfA)).toOption.map
        fun w => w.city_info.lat) ≠ some (some 1) := by
  decide

/-- C2 (amended): the returned Forecast's `city_info.lat`/`lon` equal
the backend response's `city_info.lat`/`lon` — never a coordinate
returned by the geocoder — for every geocoding outcome; they equal the
input coordinates only insofar as the backend echoes the input into its
`city_info`. -/
theorem getForecastByCoords_latlon_from_backend (lat lon : ℚ) (u : Units)
    (geo : Except GeoFailure NominatimResponse) (wf : WeatherForecast) :
    ((getForecastByCoords lat lon u geo (Except.ok wf)).toOption.map
        fun w => (w.city_info.lat, w.city_info.lon)) =
      some (wf.city_info.lat, wf.city_info.lon) := by
  cases h : getLocationFromCoords lat lon geo <;>
    simp [getForecastByCoords, getForecastByCoordsRun, h, Except.toOption]

/-- C3: the display name built by `getLocationFromCoords` is the first
non-empty field in the priority order city, town, village, county, and
is the literal "Unknown Location" when all four are missing or empty. -/
theorem resolveName_priority_chain (lat lon : ℚ) (r : NominatimResponse) :
    (∀ c, r.address.city = some c → c ≠ "" →
      (getLocationFromCoords lat lon (Except.ok r)).map CityInfo.name = some c) ∧
    (blank r.address.city → ∀ t, r.address.town = some t → t ≠ "" →
      (getLocationFromCoords lat lon (Except.ok r)).map CityInfo.name = some t) ∧
    (blank r.address.city → blank r.address.town → ∀ v, r.address.village = some v → v ≠ "" →
      (getLocationFromCoords lat lon (Except.ok r)).map CityInfo.name = some v) ∧
    (blank r.address.city → blank r.address.town → blank r.address.village →
      ∀ c2, r.address.county = some c2 → c2 ≠ "" →
      (getLocationFromCoords lat lon (Except.ok r)).map CityInfo.name = some c2) ∧
    (blank r.address.city → blank r.address.town → blank r.address.village →
      blank r.address.county →
      (getLocationFromCoords lat lon (Except.ok r)).map CityInfo.name =
        some "Unknown Location") := by
  refine ⟨?_, ?_, ?_, ?_, ?_⟩
  · intro c hc hne
    simp [getLocationFromCoords, resolveName, jsOrS, hc, hne]
  · rintro (h1 | h1) t ht hne <;>
      simp [getLocationFromCoords, resolveName, jsOrS, h1, ht, hne]
  · rintro (h1 | h1) (h2 | h2) v hv hne <;>
      simp [getLocationFromCoords, resolveName, jsOrS, h1, h2, hv, hne]
  · rintro (h1 | h1) (h2 | h2) (h3 | h3) c2 hc2 hne <;>
      simp [getLocationFromCoords, resolveName, jsOrS, h1, h2, h3, hc2, hne]
  · rintro (h1 | h1) (h2 | h2) (h3 | h3) (h4 | h4) <;>
      simp [getLocationFromCoords, resolveName, jsOrS, h1, h2, h3, h4]

/-- Witness for C3: an address with no city falls back to its town. -/
theorem resolveName_priority_chain_witness :
    (getLocationFromCoords 0 0 (Except.ok nomC)).map CityInfo.name = some "Mombasa" :=
  (resolveName_priority_chain 0 0 nomC).2.1 (Or.inl rfl) "Mombasa" rfl (by decide)

/-- C4: every failing outcome of the geocoding request — timeout,
non-200 status, malformed body — is absorbed and `getLocationFromCoords`
returns `none` instead of propagating the failure. -/
theorem getLocationFromCoords_absorbs_failures (lat lon : ℚ) (status : Nat) (raw : String) :
    getLocationFromCoords lat lon (Except.error GeoFailure.timeout) = none ∧
    getLocationFromCoords lat lon (Except.error (GeoFailure.httpError status)) = none ∧
    getLocationFromCoords lat lon (Except.error (GeoFailure.malformedBody raw)) = none :=
  ⟨rfl, rfl, rfl⟩

/-- C5: `getForecastByCity` propagates a failed backend outcome to its
caller unchanged (the same error value), and returns a successful
response as the Forecast. -/
theorem getForecastByCity_error_propagation (city : String) (u : Units)
    (e : AxiosError) (wf : WeatherForecast) :
    getForecastByCity city u (Except.error e) = Except.error e ∧
    getForecastByCity city u (Except.ok wf) = Except.ok wf :=
  ⟨rfl, rfl⟩

/-- C6: with a prior Forecast whose `city_info` has truthy coordinates
(the code's notion of known: present and non-zero) and a known city
name, `refetchWeather` dispatches to the coordinate path with
`city_info.lat`/`lon`; when the coordinates are not both truthy it
falls back to the name path. -/
theorem refetchDispatch_prefers_coords (wd : WeatherForecast) (city : String) (u : Units)
    (hcity : city ≠ "") :
    (jsTruthyNum wd.city_info.lat = true → jsTruthyNum wd.city_info.lon = true →
      refetchDispatch (some wd) city u =
        RefetchAction.byCoords wd.city_info.lat wd.city_info.lon u) ∧
    ((jsTruthyNum wd.city_info.lat && jsTruthyNum wd.city_info.lon) = false →
      refetchDispatch (some wd) city u = RefetchAction.byCity city u) := by
  constructor
  · intro h1 h2
    simp [refetchDispatch, h1, h2]
  · intro h
    simp [refetchDispatch, h, hcity]

/-- Witness for C6 at a concrete prior Forecast with coordinates. -/
theorem refetchDispatch_prefers_coords_witness :
    refetchDispatch (some wfA) "Nairobi" Units.metric =
      RefetchAction.byCoords wfA.city_info.lat wfA.city_info.lon Units.metric :=
  (refetchDispatch_prefers_coords wfA "Nairobi" Units.metric (by decide)).1
    (by decide) (by decide)

/-- JS remainder by 360 is invariant under adding one full turn to a
non-negative dividend. -/
theorem jsMod_add_cycle (d : ℚ) (hd : 0 ≤ d) : jsMod (d + 360) 360 = jsMod d 360 := by
  have h1 : (d + 360) / 360 = d / 360 + 1 := by
    rw [add_div]
    norm_num
  have h2 : (0 : ℚ) ≤ d / 360 := by positivity
  have h3 : (0 : ℚ) ≤ d / 360 + 1 := by positivity
  unfold jsMod jsTrunc
  rw [h1, if_pos h3, if_pos h2, Int.floor_add_one]
  push_cast
  ring

/-- C7: the wind-direction mapping is invariant under degree
wraparound: for every non-negative degree d,
`getWindDirection (d + 360) = getWindDirection d`; in particular 0° and
360° share a label, as do 361° and 1°. -/
theorem getWindDirection_wraparound (d : ℚ) (hd : 0 ≤ d) :
    getWindDirection (some (d + 360)) = getWindDirection (some d) := by
  simp only [getWindDirection, jsMod_add_cycle d hd]

/-- Witness for C7: 361° and 1° map to the same label. -/
theorem getWindDirection_wraparound_witness :
    getWindDirection (some ((1 : ℚ) + 360)) = getWindDirection (some 1) :=
  getWindDirection_wraparound 1 (by norm_num)

/-- C8: on a successful geocoder response, the descriptor's latitude and
longitude are parsed from the response body, and the descriptor does
not depend on the caller-supplied input coordinates. -/
theorem getLocationFromCoords_latlon_from_response
    (lat1 lon1 lat2 lon2 : ℚ) (r : NominatimResponse) :
    ((getLocationFromCoords lat1 lon1 (Except.ok r)).map fun ci => (ci.lat, ci.lon)) =
      some (parseFloatQ r.lat, parseFloatQ r.lon) ∧
    getLocationFromCoords lat1 lon1 (Except.ok r) =
      getLocationFromCoords lat2 lon2 (Except.ok r) :=
  ⟨rfl, rfl⟩

/-- C9: for every geocoding outcome and every backend outcome, the event
trace of `getForecastByCoords` is exactly geocoding request, geocoding
completion, forecast request, forecast completion, in that order: the
geocoding call completes before the forecast request is issued, the
forecast request is never skipped, and the two requests are issued
sequentially. -/
theorem getForecastByCoordsRun_trace_order (lat lon : ℚ) (u : Units)
    (geo : Except GeoFailure NominatimResponse)
    (backend : Except AxiosError WeatherForecast) :
    (getForecastByCoordsRun lat lon u geo backend).1 =
      [Event.geoRequest lat lon,
       Event.geoComplete (getLocationFromCoords lat lon geo),
       Event.forecastRequest lat lon u,
       Event.forecastComplete backend] := by
  cases backend with
  | error e => rfl
  | ok wf =>
      cases h : getLocationFromCoords lat lon geo <;>
        simp [getForecastByCoordsRun, h]

/-- C10: when geocoding succeeds with an address that has no state
field, the merged Forecast's `city_info.state` is absent, even when the
backend had supplied a state. -/
theorem merge_erases_backend_state (lat lon : ℚ) (u : Units)
    (r : NominatimResponse) (wf : WeatherForecast) (s : String)
    (hr : r.address.state = none) (hwf : wf.city_info.state = some s) :
    ((getForecastByCoords lat lon u (Except.ok r) (Except.ok wf)).toOption.map
        fun w => w.city_info.state) = some none := by
  simp [getForecastByCoords, getForecastByCoordsRun, getLocationFromCoords, hr,
    Except.toOption]

/-- Witness for C10 at a concrete stateless geocoder response and a
backend response carrying a state. -/
theorem merge_erases_backend_state_witness :
    ((getForecastByCoords 1 2 Units.metric (Except.ok nomB) (Except.ok wfA)).toOption.map
        fun w => w.city_info.state) = some none :=
  merge_erases_backend_state 1 2 Units.metric nomB wfA "Nairobi Region" rfl rfl

end Weather
